import Mathlib

/-!
Shallow embedding of the ns3-802.11ad SEM campaign driver
(`sem-conference-showcase.py`) and its utility library (`sem_utils.py`).

Python numbers are modelled as exact rationals (`ℚ`), Python strings as
`String` or `List Char`, NaN results as `none`, and fallible Python
execution as `Except PyError`.
-/

/-- The kinds of Python exceptions the embedded code can raise. -/
inductive PyError where
  | valueError
  | assertionError
  | keyError
  | attributeError
  | nameError
  | unboundLocalError
  | typeError
  | indexError
deriving DecidableEq, Repr

/-- One entry of `MCS_PARAMS` (sem_utils.py lines 14-47): PHY rate, MAC
rate, and an optional application-layer rate.  The `app_rate` key is
absent for `DMG_MCS0` and `DMG_MCS9` through `DMG_MCS12`. -/
structure MCSEntry where
  phy_rate : ℚ
  mac_rate : ℚ
  app_rate : Option ℚ
deriving DecidableEq, Repr

/-- The fixed MCS lookup table `MCS_PARAMS` of sem_utils.py, with the
float literals written out exactly (27.5e6 = 27500000, and so on). -/
def MCS_PARAMS : List (String × MCSEntry) :=
  [("DMG_MCS0", ⟨27500000, 36610012, none⟩),
   ("DMG_MCS1", ⟨385000000, 379110719, some 371355860⟩),
   ("DMG_MCS2", ⟨770000000, 746778458, some 740066284⟩),
   ("DMG_MCS3", ⟨962500000, 926434274, some 924107739⟩),
   ("DMG_MCS4", ⟨1155000000, 1103569911, some 1107782893⟩),
   ("DMG_MCS5", ⟨1251250000, 1191091513, some 1199790607⟩),
   ("DMG_MCS6", ⟨1540000000, 1449796626, some 1474081443⟩),
   ("DMG_MCS7", ⟨1925000000, 1785991762, some 1838998395⟩),
   ("DMG_MCS8", ⟨2310000000, 2113204353, some 2202194744⟩),
   ("DMG_MCS9", ⟨2502500000, 2273125221, none⟩),
   ("DMG_MCS10", ⟨3080000000, 2739606669, none⟩),
   ("DMG_MCS11", ⟨3850000000, 3332262090, none⟩),
   ("DMG_MCS12", ⟨4620000000, 3893826210, none⟩)]

/-- Python dict indexing `MCS_PARAMS[mode]` (`none` models `KeyError`). -/
def mcsLookup (mode : String) : Option MCSEntry :=
  (MCS_PARAMS.find? (fun p => p.1 == mode)).map Prod.snd

/-- Round half to even, as Python's `round` and float formatting with
`.0f` do (exact-rational model of the float computation). -/
def pyRound (q : ℚ) : ℤ :=
  let f := ⌊q⌋
  if q - f < 1 / 2 then f
  else if q - f > 1 / 2 then f + 1
  else if f % 2 = 0 then f else f + 1

/-- Python `.0f`-formatting of a rate followed by the literal `bps`, as
`getAppDataRate` builds its rate strings. -/
def formatBps (x : ℚ) : String := toString (pyRound x) ++ "bps"

/-- The specification's formula for the per-station rate string:
`round(f × phy_rate / n)` rendered as a whole-number bits-per-second
string.  Stated from the spec's words, to be compared with
`getAppDataRate`. -/
def specRateString (f phyRate n : ℚ) : String :=
  toString (pyRound (f * phyRate / n)) ++ "bps"

/-- The dynamic type of the `norm_offered_traffic` argument of
`getAppDataRate` (driver lines 67-79): the source branches on
`type(...) is list` and `type(...) is float`; any other runtime type
falls through both branches. -/
inductive NormTraffic where
  | float (f : ℚ)
  | list (fs : List ℚ)
  | int (n : ℤ)
  | str (s : String)
deriving Repr

/-- `getAppDataRate` (sem-conference-showcase.py lines 67-79).  The MCS
table lookup happens first; an unknown mode is a `KeyError`.  For a
non-list, non-float argument the source merely *constructs*
`ValueError(...)` without raising it, so `sta_rate` is still unbound at
`return sta_rate` and the call raises `UnboundLocalError`. -/
def getAppDataRate (phy_mode : String) (num_stas : ℚ)
    (norm_offered_traffic : NormTraffic) : Except PyError (List String) :=
  match mcsLookup phy_mode with
  | none => .error .keyError
  | some entry =>
    let rate_per_sta := entry.phy_rate / num_stas
    match norm_offered_traffic with
    | .list fs => .ok (fs.map (fun r => formatBps (r * rate_per_sta)))
    | .float f => .ok [formatBps (f * rate_per_sta)]
    | _ => .error .unboundLocalError

/-- Python slicing `s[-n:]` on a string (clamps to the whole string when
it is shorter than `n`). -/
def pyTakeRight (n : ℕ) (s : List Char) : List Char := s.drop (s.length - n)

/-- Python slicing `s[:-n]` on a string for positive `n` (empty when the
string has at most `n` characters). -/
def pyDropRight (n : ℕ) (s : List Char) : List Char := s.take (s.length - n)

/-- Python `str.isnumeric`, restricted to ASCII decimal digits (the only
characters the driver's rate strings ever contain); the empty string is
not numeric. -/
def pyIsNumeric (s : List Char) : Bool := !s.isEmpty && s.all (·.isDigit)

/-- The numeric value of an all-digits string, as `float(s)` reads it. -/
def digitsVal (s : List Char) : ℕ :=
  s.foldl (fun a c => 10 * a + (c.toNat - 48)) 0

/-- `data_rate_bps_2_float_mbps` (sem_utils.py lines 49-59): the four
suffix checks in source order; the final `else` raises `ValueError`. -/
def data_rate_bps_2_float_mbps (s : List Char) : Except PyError ℚ :=
  if (pyTakeRight 3 s == "bps".toList) && pyIsNumeric (pyDropRight 3 s) then
    .ok ((digitsVal (pyDropRight 3 s) : ℚ) / 1000000)
  else if (pyTakeRight 4 s == "kbps".toList) && pyIsNumeric (pyDropRight 4 s) then
    .ok ((digitsVal (pyDropRight 4 s) : ℚ) / 1000)
  else if (pyTakeRight 4 s == "Mbps".toList) && pyIsNumeric (pyDropRight 4 s) then
    .ok ((digitsVal (pyDropRight 4 s) : ℚ))
  else if (pyTakeRight 4 s == "Gbps".toList) && pyIsNumeric (pyDropRight 4 s) then
    .ok ((digitsVal (pyDropRight 4 s) : ℚ) * 1000)
  else .error .valueError

/-- The disjunction of the branch guards of `data_rate_bps_2_float_mbps`
that lead to a returned value rather than `ValueError`. -/
def validRateString (s : List Char) : Bool :=
  ((pyTakeRight 3 s == "bps".toList) && pyIsNumeric (pyDropRight 3 s)) ||
  ((pyTakeRight 4 s == "kbps".toList) && pyIsNumeric (pyDropRight 4 s)) ||
  ((pyTakeRight 4 s == "Mbps".toList) && pyIsNumeric (pyDropRight 4 s)) ||
  ((pyTakeRight 4 s == "Gbps".toList) && pyIsNumeric (pyDropRight 4 s))

/-- A Simulation Result as the driver reads it: the `output` mapping from
output-file name to captured text. -/
structure SimResult where
  output : List (String × List Char)
deriving Repr

/-- A NumPy 2-D integer array: its shape together with its initialised
rows. -/
structure NpArray where
  rows : ℕ
  cols : ℕ
  data : List (List ℤ)
deriving DecidableEq, Repr

/-- Python `text.rstrip` of newline characters. -/
def pyRstripNl (s : List Char) : List Char :=
  (s.reverse.dropWhile (· = '\n')).reverse

/-- Python `int(s)` on a trace field: an optionally signed digit string;
anything else raises `ValueError`. -/
def pyInt (s : List Char) : Except PyError ℤ :=
  if pyIsNumeric s then .ok (digitsVal s)
  else
    match s with
    | '-' :: rest =>
      if pyIsNumeric rest then .ok (-(digitsVal rest : ℤ)) else .error .valueError
    | _ => .error .valueError

/-- `output_to_arr` (sem_utils.py lines 62-100).  Source defaults:
`row_sep` is a newline, `columns=None` (modelled as `[]`),
`numeric_cols=None`.  The `assert numeric_cols is 'all'` identity test is
modelled as string equality (the driver would pass the interned literal).
The fill loop writes into `np.empty((len, len(columns)))`: a parsed row
longer than the header raises `IndexError`, a non-integer cell raises
`ValueError`, and the initialised cells are exactly the parsed integers.
Note the dead `len(parsed_data) == 0` branch: Python's `split` never
returns an empty list, so the documented 0x0 case is unreachable. -/
def output_to_arr (result : SimResult) (data_filename : String)
    (column_sep : Char) (row_sep : Char) (columns : List (List Char))
    (numeric_cols : String) : Except PyError NpArray :=
  if numeric_cols ≠ "all" then .error .assertionError
  else
    match (result.output.find? (fun p => p.1 == data_filename)).map Prod.snd with
    | none => .error .assertionError
    | some text =>
      let data := pyRstripNl text
      let parsed_data := data.splitOn row_sep
      match parsed_data with
      | [] => .ok ⟨0, 0, []⟩
      | first :: rest =>
        let cols := if columns.isEmpty then first.splitOn column_sep else columns
        let dataRows := if columns.isEmpty then rest else first :: rest
        if dataRows.length > 1 then
          match dataRows.mapM (fun line =>
              let vals := line.splitOn column_sep
              if vals.length > cols.length then Except.error PyError.indexError
              else vals.mapM pyInt) with
          | .error e => .error e
          | .ok rowsData => .ok ⟨dataRows.length, cols.length, rowsData⟩
        else .ok ⟨0, cols.length, []⟩

/-- `np.mean`: NaN (modelled as `none`) on an empty array. -/
def npMean (xs : List ℚ) : Option ℚ :=
  if xs.isEmpty then none else some (xs.sum / xs.length)

/-- `jain_fairness` (sem_utils.py lines 103-105).  When the mean of the
squares is zero (which forces every value, hence also the numerator, to
be zero) the unguarded division is NumPy's 0/0 and produces NaN
(`none`); an empty input likewise gives NaN. -/
def jain_fairness (xs : List ℚ) : Option ℚ :=
  match npMean xs, npMean (xs.map (fun x => x ^ 2)) with
  | some m, some q => if q = 0 then none else some (m ^ 2 / q)
  | _, _ => none

/-- `sta_data_rate_mbps` (sem_utils.py lines 182-187): the A-MPDU size
assertion runs first; `MCS_PARAMS[phy_mode]['app_rate']` raises
`KeyError` when the mode, or its `app_rate` key, is missing. -/
def sta_data_rate_mbps (num_stas : ℚ) (phy_mode : String)
    (norm_offered_traffic : ℚ) (mpduAggregationSize : ℤ) : Except PyError ℚ :=
  if mpduAggregationSize ≠ 262143 then .error .assertionError
  else
    match mcsLookup phy_mode with
    | none => .error .keyError
    | some entry =>
      match entry.app_rate with
      | none => .error .keyError
      | some r =>
        let phy_rate_mbps := r / 1000000
        let max_rate_per_sta := phy_rate_mbps / num_stas
        .ok (norm_offered_traffic * max_rate_per_sta)

/-- The top-level names bound in module `sem_utils` (its three imports,
its table and its five function definitions).  `output_to_df` is not
among them. -/
def sem_utils_defs : List String :=
  ["np", "pd", "plt", "MCS_PARAMS", "data_rate_bps_2_float_mbps",
   "output_to_arr", "jain_fairness", "bar_plot", "sta_data_rate_mbps"]

/-- Python attribute lookup on module `sem_utils`. -/
def sem_utils_has (name : String) : Bool := sem_utils_defs.contains name

/-- `compute_norm_aggr_thr` (driver lines 173-182): its first statement
evaluates `sem_utils.output_to_df`, an attribute the utilities module
does not define, so the call raises `AttributeError` before computing
anything. -/
def compute_norm_aggr_thr (num_stas : ℚ) (result : SimResult) :
    Except PyError ℚ :=
  if h : sem_utils_has "output_to_df" then absurd h (by decide)
  else .error .attributeError

/-- `compute_user_thr` (driver lines 185-192): first evaluates
`sem_utils.output_to_df`, which raises `AttributeError`. -/
def compute_user_thr (result : SimResult) : Except PyError (List ℚ) :=
  if h : sem_utils_has "output_to_df" then absurd h (by decide)
  else .error .attributeError

/-- `compute_user_avg_delay` (driver lines 195-202): first evaluates
`sem_utils.output_to_df`, which raises `AttributeError`. -/
def compute_user_avg_delay (result : SimResult) :
    Except PyError (List (Option ℚ)) :=
  if h : sem_utils_has "output_to_df" then absurd h (by decide)
  else .error .attributeError

/-- `compute_avg_aggr_delay_ms` (driver lines 205-212): first evaluates
`sem_utils.output_to_df`, which raises `AttributeError`. -/
def compute_avg_aggr_delay_ms (result : SimResult) :
    Except PyError (Option ℚ) :=
  if h : sem_utils_has "output_to_df" then absurd h (by decide)
  else .error .attributeError

/-- `compute_std_aggr_delay_ms` (driver lines 215-225): first evaluates
`sem_utils.output_to_df`, which raises `AttributeError`. -/
def compute_std_aggr_delay_ms (result : SimResult) :
    Except PyError (Option ℚ) :=
  if h : sem_utils_has "output_to_df" then absurd h (by decide)
  else .error .attributeError

/-- `compute_avg_delay_variation_ms` (driver lines 228-239): first
evaluates `sem_utils.output_to_df`, which raises `AttributeError`. -/
def compute_avg_delay_variation_ms (result : SimResult) :
    Except PyError (Option ℚ) :=
  if h : sem_utils_has "output_to_df" then absurd h (by decide)
  else .error .attributeError

/-- `compute_jain_fairness` (driver lines 242-250): first evaluates
`sem_utils.output_to_df`, which raises `AttributeError`. -/
def compute_jain_fairness (result : SimResult) : Except PyError (Option ℚ) :=
  if h : sem_utils_has "output_to_df" then absurd h (by decide)
  else .error .attributeError

/-- One row of the packet-trace table `packetsTrace.csv`. -/
structure PktRow where
  SrcNodeId : ℕ
  TxTimestamp_ns : ℤ
  RxTimestamp_ns : ℤ
  PktSize_B : ℕ
deriving DecidableEq, Repr

/-- `compute_avg_thr_mbps` (driver lines 145-154), applied to a parsed
packet-trace table. -/
def compute_avg_thr_mbps (pkts_df : List PktRow) : ℚ :=
  match pkts_df with
  | [] => 0
  | r :: rest =>
    let tstart : ℚ := (r.TxTimestamp_ns : ℚ) / 1000000000
    let tend : ℚ :=
      (((r :: rest).getLast (List.cons_ne_nil r rest)).RxTimestamp_ns : ℚ) / 1000000000
    let rx_mb : ℚ := ((r :: rest).map (fun p => (p.PktSize_B : ℚ))).sum * 8 / 1000000
    rx_mb / (tend - tstart)

/-- `compute_avg_delay_ms` (driver lines 157-163), applied to a parsed
packet-trace table; the NaN returned for an empty table is `none`. -/
def compute_avg_delay_ms (pkts_df : List PktRow) : Option ℚ :=
  if pkts_df.length > 0 then
    some (((pkts_df.map
      (fun p => ((p.RxTimestamp_ns - p.TxTimestamp_ns : ℤ) : ℚ))).sum
        / pkts_df.length) / 1000000000 * 1000)
  else none

/-- The square of pandas `Series.std()` (which uses `ddof=1`): the sample
variance, NaN (`none`) for fewer than two samples.  The square is
modelled because the standard deviation itself is irrational over `ℚ`;
the NaN structure is identical. -/
def pandasStdSq (xs : List ℚ) : Option ℚ :=
  if 2 ≤ xs.length then
    some ((xs.map (fun x => (x - xs.sum / xs.length) ^ 2)).sum
      / ((xs.length : ℚ) - 1))
  else none

/-- The packet-trace reduction inside `compute_std_aggr_delay_ms`
(driver lines 221-225), applied to an already-parsed table (the
preceding `sem_utils.output_to_df` call itself is modelled by
`compute_std_aggr_delay_ms`).  It returns the square of the ms-scaled
standard deviation, with NaN as `none`. -/
def std_aggr_delay_ms_sq_of_df (pkts_df : List PktRow) : Option ℚ :=
  if pkts_df.length > 0 then
    (pandasStdSq (pkts_df.map
      (fun p => ((p.RxTimestamp_ns - p.TxTimestamp_ns : ℤ) : ℚ)))).map
      (fun v => v / 1000000000 ^ 2 * 1000 ^ 2)
  else none

/-- `np.diff`: successive differences. -/
def npDiff (xs : List ℚ) : List ℚ :=
  (xs.zip xs.tail).map (fun p => p.2 - p.1)

/-- The packet-trace reduction inside `compute_avg_delay_variation_ms`
(driver lines 234-239), applied to an already-parsed table (the
preceding `sem_utils.output_to_df` call itself is modelled by
`compute_avg_delay_variation_ms`); NaN is `none`. -/
def avg_delay_variation_ms_of_df (pkts_df : List PktRow) : Option ℚ :=
  if pkts_df.length > 1 then
    let delay := pkts_df.map
      (fun p => ((p.RxTimestamp_ns - p.TxTimestamp_ns : ℤ) : ℚ) / 1000000000 * 1000)
    npMean ((npDiff delay).map (fun d => |d|))
  else none

/-- The five recognised `paramSet` presets of the driver's main script. -/
inductive Preset where
  | basic
  | onoff
  | onoff_stdev
  | spPeriodicity
  | onoffPeriodicity
deriving DecidableEq, Repr

/-- A value stored in a Parameter Combination entry. -/
inductive ParamEntry where
  | int (n : ℤ)
  | list (xs : List ℤ)
deriving DecidableEq, Repr

/-- The bar-plot-time station-count assertion
`assert len(bar_plots_params['numStas']) == 1` (driver lines 418, 499,
584, 663 and 743), evaluated with the given `numStas` entry.  In the
`basic` branch the name `bar_plots_params` is never assigned (the four
other branches first set it from `param_combination`), so evaluating the
assert expression raises `NameError` there; in the other branches `len`
of a non-list entry raises `TypeError`, and a list of length other than
one fails the assertion. -/
def barPlotNumStasCheck (p : Preset) (numStasEntry : ParamEntry) :
    Except PyError Unit :=
  match p with
  | .basic => .error .nameError
  | _ =>
    match numStasEntry with
    | .list xs => if xs.length = 1 then .ok () else .error .assertionError
    | .int _ => .error .typeError

/-- C1: On a result whose named output-file text is empty,
`output_to_arr` (with `numeric_cols='all'`, no explicit column list)
returns a 0x1 zeros array, not the 0x0 array its docstring promises
(Python's `split` yields `['']`, whose single header field becomes one
column); and on the two-row CSV text `a,b` newline `1,2` it returns a
0x2 zeros array rather than the 1x2 table `[[1,2]]`, because the fill
branch requires strictly more than one data row. -/
theorem output_to_arr_empty_and_single_row (result : SimResult)
    (fname : String)
    (h : (result.output.find? (fun p => p.1 == fname)).map Prod.snd = some []) :
    output_to_arr result fname ',' '\n' [] "all" = .ok ⟨0, 1, []⟩ ∧
    output_to_arr ⟨[("packetsTrace.csv", "a,b\n1,2".toList)]⟩
      "packetsTrace.csv" ',' '\n' [] "all" = .ok ⟨0, 2, []⟩ := by
  constructor
  · unfold output_to_arr
    rw [h]
    rfl
  · rfl

/-- Witness for `output_to_arr_empty_and_single_row` at a concrete result
holding an empty `packetsTrace.csv`. -/
theorem output_to_arr_empty_and_single_row_witness :
    ((SimResult.mk [("packetsTrace.csv", [])]).output.find?
      (fun p => p.1 == "packetsTrace.csv")).map Prod.snd = some [] ∧
    output_to_arr ⟨[("packetsTrace.csv", [])]⟩ "packetsTrace.csv" ',' '\n'
      [] "all" = .ok ⟨0, 1, []⟩ :=
  ⟨rfl, (output_to_arr_empty_and_single_row ⟨[("packetsTrace.csv", [])]⟩
    "packetsTrace.csv" rfl).1⟩

/-- C2: `output_to_df` is not a name bound by module `sem_utils`, and
each of the driver's seven metric-extraction functions therefore fails
with an attribute (name-lookup) error on every input, before computing
any metric value. -/
theorem compute_metrics_hit_missing_output_to_df :
    sem_utils_has "output_to_df" = false ∧
    (∀ (n : ℚ) (r : SimResult),
      compute_norm_aggr_thr n r = .error .attributeError) ∧
    (∀ r, compute_user_thr r = .error .attributeError) ∧
    (∀ r, compute_user_avg_delay r = .error .attributeError) ∧
    (∀ r, compute_avg_aggr_delay_ms r = .error .attributeError) ∧
    (∀ r, compute_std_aggr_delay_ms r = .error .attributeError) ∧
    (∀ r, compute_avg_delay_variation_ms r = .error .attributeError) ∧
    (∀ r, compute_jain_fairness r = .error .attributeError) :=
  ⟨by decide, fun _ _ => rfl, fun _ => rfl, fun _ => rfl, fun _ => rfl,
    fun _ => rfl, fun _ => rfl, fun _ => rfl⟩

/-- C3: for an argument that is neither a list nor a float (an int, a
string), `getAppDataRate` does not raise `ValueError` - the source only
constructs the exception without raising it - and instead fails with
`UnboundLocalError` at `return sta_rate`. -/
theorem getAppDataRate_else_branch_unbound :
    getAppDataRate "DMG_MCS4" 4 (.int 1) = .error .unboundLocalError ∧
    getAppDataRate "DMG_MCS4" 4 (.str "0.5") = .error .unboundLocalError :=
  ⟨rfl, rfl⟩

/-- C4: at bar-plot time the station-count assertion behaves as claimed
only in the four non-`basic` presets (a multi-valued list entry aborts
with `AssertionError`, a singleton passes); in the `basic` preset the
name `bar_plots_params` is unbound, so the same line aborts with
`NameError` instead of an assertion failure. -/
theorem barPlot_numStas_check_results :
    barPlotNumStasCheck .basic (.list [2, 4]) = .error .nameError ∧
    barPlotNumStasCheck .onoff (.list [2, 4]) = .error .assertionError ∧
    barPlotNumStasCheck .onoff_stdev (.list [2, 4]) = .error .assertionError ∧
    barPlotNumStasCheck .spPeriodicity (.list [2, 4]) =
      .error .assertionError ∧
    barPlotNumStasCheck .onoffPeriodicity (.list [2, 4]) =
      .error .assertionError ∧
    barPlotNumStasCheck .onoff (.list [4]) = .ok () :=
  ⟨rfl, rfl, rfl, rfl, rfl, rfl⟩

/-- C9: an empty packet-trace table yields throughput 0 and NaN for the
delay metrics, and any table with fewer than two rows yields NaN delay
variation; none of these cases is an error. -/
theorem empty_trace_metric_fallbacks (pkts : List PktRow)
    (h : pkts.length < 2) :
    compute_avg_thr_mbps [] = 0 ∧
    compute_avg_delay_ms [] = none ∧
    std_aggr_delay_ms_sq_of_df [] = none ∧
    avg_delay_variation_ms_of_df pkts = none := by
  refine ⟨rfl, rfl, rfl, ?_⟩
  unfold avg_delay_variation_ms_of_df
  rw [if_neg (by omega)]

/-- Witness for `empty_trace_metric_fallbacks` at a one-row table. -/
theorem empty_trace_metric_fallbacks_witness :
    ([⟨0, 0, 5, 100⟩] : List PktRow).length < 2 ∧
    avg_delay_variation_ms_of_df [⟨0, 0, 5, 100⟩] = none :=
  ⟨by decide,
    (empty_trace_metric_fallbacks [⟨0, 0, 5, 100⟩] (by decide)).2.2.2⟩

/-- C10: on an all-zero sequence of per-node values - exactly what the
per-node throughputs are when every node's packet trace is empty, since
`compute_avg_thr_mbps` of an empty table is 0 - `jain_fairness` hits the
unguarded 0/0 and produces NaN (`none`), a non-value outside (0,1],
rather than raising or returning a fairness value. -/
theorem jain_fairness_zero_throughputs (n : ℕ) (hn : 1 ≤ n)
    (xs : List ℚ) (hne : xs ≠ []) (hz : ∀ x ∈ xs, x = 0) :
    jain_fairness (List.replicate n (compute_avg_thr_mbps [])) = none ∧
    jain_fairness xs = none := by
  have key : ∀ ys : List ℚ, ys ≠ [] → (∀ x ∈ ys, x = 0) →
      jain_fairness ys = none := by
    intro ys hne' hz'
    have hsum : ys.sum = 0 := List.sum_eq_zero hz'
    have hsq : (ys.map (fun x => x ^ 2)).sum = 0 := by
      refine List.sum_eq_zero ?_
      intro y hy
      obtain ⟨z, hz2, rfl⟩ := List.mem_map.1 hy
      rw [hz' z hz2]
      ring
    have h1 : npMean ys = some 0 := by
      unfold npMean
      rw [if_neg (by simpa using hne'), hsum]
      simp
    have h2 : npMean (ys.map (fun x => x ^ 2)) = some 0 := by
      unfold npMean
      rw [if_neg (by simp [hne']), hsq]
      simp
    unfold jain_fairness
    rw [h1, h2]
    simp
  refine ⟨key _ ?_ ?_, key xs hne hz⟩
  · have : (List.replicate n (compute_avg_thr_mbps [])).length = n := by
      simp
    intro hcon
    rw [hcon] at this
    simp at this
    omega
  · intro x hx
    have := List.eq_of_mem_replicate hx
    rw [this]
    rfl

/-- Witness for `jain_fairness_zero_throughputs` at four stations and the
singleton zero sequence. -/
theorem jain_fairness_zero_throughputs_witness :
    1 ≤ 4 ∧ ([(0 : ℚ)] ≠ []) ∧ (∀ x ∈ [(0 : ℚ)], x = 0) ∧
    jain_fairness (List.replicate 4 (compute_avg_thr_mbps [])) = none ∧
    jain_fairness [(0 : ℚ)] = none := by
  have h := jain_fairness_zero_throughputs 4 (by norm_num) [0] (by simp)
    (by simp)
  exact ⟨by norm_num, by simp, by simp, h.1, h.2⟩

/-- C8 counterexample: on the all-zero sequence `[0,0,0,0]`,
`jain_fairness` returns NaN (`none`), so its result does not lie in the
claimed range (0,1]. -/
theorem jain_fairness_all_zero_input :
    jain_fairness [0, 0, 0, 0] = none := by
  have h1 : npMean [(0 : ℚ), 0, 0, 0] = some 0 := by
    unfold npMean
    norm_num
  have h2 : npMean ([(0 : ℚ), 0, 0, 0].map (fun x => x ^ 2)) = some 0 := by
    unfold npMean
    norm_num
  unfold jain_fairness
  rw [h1, h2]
  simp

/-- C5: for every mode present in the MCS table, every station count
n ≥ 1 and every fraction, `getAppDataRate` on a scalar returns the single
rate string `round(f × phy_rate / n)` formatted as a whole-number
bits-per-second string, and on a list of fractions returns the list of
the same length whose elements each independently follow the scalar
formula. -/
theorem getAppDataRate_matches_rate_formula (mode : String)
    (entry : MCSEntry) (hm : mcsLookup mode = some entry) (n : ℚ)
    (hn : 1 ≤ n) (f : ℚ) (fs : List ℚ) :
    getAppDataRate mode n (.float f) =
      .ok [specRateString f entry.phy_rate n] ∧
    getAppDataRate mode n (.list fs) =
      .ok (fs.map (fun g => specRateString g entry.phy_rate n)) := by
  have key : ∀ g : ℚ,
      formatBps (g * (entry.phy_rate / n)) = specRateString g entry.phy_rate n := by
    intro g
    unfold formatBps specRateString
    rw [mul_div_assoc]
  unfold getAppDataRate
  rw [hm]
  exact ⟨by simp only [key], by simp only [key]⟩

/-- Witness for `getAppDataRate_matches_rate_formula` at `DMG_MCS4`,
four stations, and the fractions 3/4 and [1/2, 1]. -/
theorem getAppDataRate_matches_rate_formula_witness :
    mcsLookup "DMG_MCS4" = some ⟨1155000000, 1103569911, some 1107782893⟩ ∧
    (1 : ℚ) ≤ 4 ∧
    getAppDataRate "DMG_MCS4" 4 (.float (3 / 4)) =
      .ok [specRateString (3 / 4) 1155000000 4] ∧
    getAppDataRate "DMG_MCS4" 4 (.list [1 / 2, 1]) =
      .ok [specRateString (1 / 2) 1155000000 4,
           specRateString 1 1155000000 4] := by
  have h := getAppDataRate_matches_rate_formula "DMG_MCS4"
    ⟨1155000000, 1103569911, some 1107782893⟩ rfl 4 (by norm_num) (3 / 4)
    [1 / 2, 1]
  exact ⟨rfl, by norm_num, h.1, h.2⟩

/-- C7 counterexample: `DMG_MCS0` is present in the MCS table, yet
`sta_data_rate_mbps` at the required aggregation size 262143 raises
`KeyError` for it (its entry lacks the `app_rate` key) instead of
returning the claimed formula value. -/
theorem sta_data_rate_mbps_mcs0_keyError :
    mcsLookup "DMG_MCS0" = some ⟨27500000, 36610012, none⟩ ∧
    sta_data_rate_mbps 4 "DMG_MCS0" 1 262143 = .error .keyError :=
  ⟨rfl, rfl⟩

/-- C7 (amended): `sta_data_rate_mbps` raises an assertion error for
every aggregation size other than 262143; at 262143, for every mode
whose table entry carries an app-layer rate, it returns
`norm_offered_traffic × (app_rate / 1e6) / num_stas`. -/
theorem sta_data_rate_mbps_spec (num_stas : ℚ) (phy_mode : String)
    (norm : ℚ) (aggr : ℤ) (ha : aggr ≠ 262143) (entry : MCSEntry) (r : ℚ)
    (hm : mcsLookup phy_mode = some entry) (hr : entry.app_rate = some r) :
    sta_data_rate_mbps num_stas phy_mode norm aggr =
      .error .assertionError ∧
    sta_data_rate_mbps num_stas phy_mode norm 262143 =
      .ok (norm * (r / 1000000 / num_stas)) := by
  constructor
  · unfold sta_data_rate_mbps
    rw [if_pos ha]
  · unfold sta_data_rate_mbps
    rw [if_neg (by norm_num : ¬(262143 : ℤ) ≠ 262143)]
    rw [hm]
    dsimp only
    rw [hr]

/-- Witness for `sta_data_rate_mbps_spec` at `DMG_MCS4`, four stations,
unit fraction, and the wrong aggregation size 0. -/
theorem sta_data_rate_mbps_spec_witness :
    (0 : ℤ) ≠ 262143 ∧
    mcsLookup "DMG_MCS4" = some ⟨1155000000, 1103569911, some 1107782893⟩ ∧
    sta_data_rate_mbps 4 "DMG_MCS4" 1 0 = .error .assertionError ∧
    sta_data_rate_mbps 4 "DMG_MCS4" 1 262143 =
      .ok (1 * ((1107782893 : ℚ) / 1000000 / 4)) := by
  have h := sta_data_rate_mbps_spec 4 "DMG_MCS4" 1 0 (by norm_num)
    ⟨1155000000, 1103569911, some 1107782893⟩ 1107782893 rfl rfl
  exact ⟨by norm_num, rfl, h.1, h.2⟩

/-- Cauchy-Schwarz for list sums: the square of the sum is at most the
length times the sum of the squares. -/
theorem list_sq_sum_le_length_mul_sum_sq (xs : List ℚ) :
    xs.sum ^ 2 ≤ (xs.length : ℚ) * (xs.map (fun x => x ^ 2)).sum := by
  have h := sq_sum_le_card_mul_sum_sq
    (s := (Finset.univ : Finset (Fin xs.length))) (f := fun i => xs.get i)
  rw [Finset.card_univ, Fintype.card_fin] at h
  have e1 : ∑ i : Fin xs.length, xs.get i = xs.sum := by
    rw [← List.sum_ofFn, List.ofFn_get]
  have e2 : ∑ i : Fin xs.length, xs.get i ^ 2 =
      (xs.map (fun x => x ^ 2)).sum := by
    rw [← List.sum_ofFn]
    congr 1
    show List.ofFn ((fun x => x ^ 2) ∘ xs.get) = _
    rw [← List.map_ofFn, List.ofFn_get]
  rw [e1, e2] at h
  exact h

/-- C8 (amended): `jain_fairness` satisfies the quoted examples, and on
every nonempty sequence of nonnegative per-node values with at least one
positive value it returns `mean(x)^2 / mean(x^2)`, a value in the range
(0,1]; the all-zero case (excluded here) instead yields NaN. -/
theorem jain_fairness_spec (xs : List ℚ) (hne : xs ≠ [])
    (hnn : ∀ x ∈ xs, 0 ≤ x) (hpos : ∃ x ∈ xs, 0 < x) :
    jain_fairness [(1 : ℚ), 1, 1, 1] = some 1 ∧
    jain_fairness [(1 : ℚ), 0, 0, 0] = some (1 / 4) ∧
    jain_fairness xs =
      some ((xs.sum / (xs.length : ℚ)) ^ 2 /
        ((xs.map (fun x => x ^ 2)).sum / (xs.length : ℚ))) ∧
    ∃ v, jain_fairness xs = some v ∧ 0 < v ∧ v ≤ 1 := by
  obtain ⟨x, hx, hxpos⟩ := hpos
  have hlen : 0 < xs.length := List.length_pos.mpr hne
  have hnpos : (0 : ℚ) < (xs.length : ℚ) := by exact_mod_cast hlen
  have hS : 0 < xs.sum := lt_of_lt_of_le hxpos (List.single_le_sum hnn x hx)
  have hsqnn : ∀ y ∈ xs.map (fun x => x ^ 2), 0 ≤ y := by
    intro y hy
    obtain ⟨z, _, rfl⟩ := List.mem_map.1 hy
    positivity
  have hQ : 0 < (xs.map (fun x => x ^ 2)).sum :=
    lt_of_lt_of_le (by positivity)
      (List.single_le_sum hsqnn (x ^ 2) (List.mem_map_of_mem _ hx))
  have hm : npMean xs = some (xs.sum / (xs.length : ℚ)) := by
    unfold npMean
    rw [if_neg (by simpa using hne)]
  have hq : npMean (xs.map (fun x => x ^ 2)) =
      some ((xs.map (fun x => x ^ 2)).sum / (xs.length : ℚ)) := by
    unfold npMean
    rw [if_neg (by simp [hne])]
    simp
  have hqpos : 0 < (xs.map (fun x => x ^ 2)).sum / (xs.length : ℚ) :=
    div_pos hQ hnpos
  have hjain : jain_fairness xs =
      some ((xs.sum / (xs.length : ℚ)) ^ 2 /
        ((xs.map (fun x => x ^ 2)).sum / (xs.length : ℚ))) := by
    unfold jain_fairness
    rw [hm, hq]
    dsimp only
    rw [if_neg (ne_of_gt hqpos)]
  refine ⟨?_, ?_, hjain, ?_⟩
  · have h1 : npMean [(1 : ℚ), 1, 1, 1] = some 1 := by
      unfold npMean
      norm_num
    have h2 : npMean ([(1 : ℚ), 1, 1, 1].map (fun x => x ^ 2)) = some 1 := by
      unfold npMean
      norm_num
    unfold jain_fairness
    rw [h1, h2]
    norm_num
  · have h1 : npMean [(1 : ℚ), 0, 0, 0] = some (1 / 4) := by
      unfold npMean
      norm_num
    have h2 : npMean ([(1 : ℚ), 0, 0, 0].map (fun x => x ^ 2)) =
        some (1 / 4) := by
      unfold npMean
      norm_num
    unfold jain_fairness
    rw [h1, h2]
    norm_num
  · refine ⟨(xs.sum / (xs.length : ℚ)) ^ 2 /
      ((xs.map (fun x => x ^ 2)).sum / (xs.length : ℚ)), hjain, ?_, ?_⟩
    · exact div_pos (by positivity) hqpos
    · rw [div_le_one hqpos, div_pow,
        div_le_div_iff₀ (by positivity) hnpos]
      have hcs := list_sq_sum_le_length_mul_sum_sq xs
      nlinarith [mul_le_mul_of_nonneg_right hcs hnpos.le]

/-- Witness for `jain_fairness_spec` at the sequence `[1,0,0,0]`. -/
theorem jain_fairness_spec_witness :
    ([(1 : ℚ), 0, 0, 0] ≠ []) ∧ (∀ x ∈ [(1 : ℚ), 0, 0, 0], 0 ≤ x) ∧
    (∃ x ∈ [(1 : ℚ), 0, 0, 0], 0 < x) ∧
    (∃ v, jain_fairness [(1 : ℚ), 0, 0, 0] = some v ∧ 0 < v ∧ v ≤ 1) := by
  have h := jain_fairness_spec [(1 : ℚ), 0, 0, 0] (by simp)
    (by norm_num) ⟨1, by norm_num⟩
  exact ⟨by simp, by norm_num, ⟨1, by norm_num⟩, h.2.2.2⟩

/-- Splitting a Python string into its `[:-n]` and `[-n:]` parts gives it
back. -/
theorem pySplit_eq (n : ℕ) (s : List Char) :
    pyDropRight n s ++ pyTakeRight n s = s :=
  List.take_append_drop _ s

/-- `s[-3:]` of a string made of a prefix and three final characters. -/
theorem pyTakeRight_append3 (p : List Char) (a b c : Char) :
    pyTakeRight 3 (p ++ [a, b, c]) = [a, b, c] := by
  unfold pyTakeRight
  rw [List.length_append]
  norm_num

/-- `s[:-3]` of a string made of a prefix and three final characters. -/
theorem pyDropRight_append3 (p : List Char) (a b c : Char) :
    pyDropRight 3 (p ++ [a, b, c]) = p := by
  unfold pyDropRight
  rw [List.length_append]
  norm_num

/-- `s[-4:]` of a string made of a prefix and four final characters. -/
theorem pyTakeRight_append4 (p : List Char) (a b c d : Char) :
    pyTakeRight 4 (p ++ [a, b, c, d]) = [a, b, c, d] := by
  unfold pyTakeRight
  rw [List.length_append]
  norm_num

/-- `s[:-4]` of a string made of a prefix and four final characters. -/
theorem pyDropRight_append4 (p : List Char) (a b c d : Char) :
    pyDropRight 4 (p ++ [a, b, c, d]) = p := by
  unfold pyDropRight
  rw [List.length_append]
  norm_num

/-- `s[-3:]` of a string made of a prefix and four final characters. -/
theorem pyTakeRight3_append4 (p : List Char) (a b c d : Char) :
    pyTakeRight 3 (p ++ [a, b, c, d]) = [b, c, d] := by
  unfold pyTakeRight
  rw [List.length_append]
  have : p.length + [a, b, c, d].length - 3 = p.length + 1 := by
    simp
  rw [this, List.drop_append]
  rfl

/-- `s[:-3]` of a string made of a prefix and four final characters. -/
theorem pyDropRight3_append4 (p : List Char) (a b c d : Char) :
    pyDropRight 3 (p ++ [a, b, c, d]) = p ++ [a] := by
  unfold pyDropRight
  rw [List.length_append]
  have : p.length + [a, b, c, d].length - 3 = p.length + 1 := by
    simp
  rw [this, List.take_append]
  rfl

/-- Appending a non-digit character to any string makes it non-numeric. -/
theorem pyIsNumeric_append_nondigit (p : List Char) (c : Char)
    (hc : c.isDigit = false) : pyIsNumeric (p ++ [c]) = false := by
  unfold pyIsNumeric
  simp [List.all_append, hc]

/-- A numeric prefix followed by `bps` takes the first branch of the
parser. -/
theorem dataRate_ok_bps (p : List Char) (hp : pyIsNumeric p = true) :
    data_rate_bps_2_float_mbps (p ++ "bps".toList) =
      .ok ((digitsVal p : ℚ) / 1000000) := by
  unfold data_rate_bps_2_float_mbps
  rw [show "bps".toList = ['b', 'p', 's'] from rfl]
  rw [pyTakeRight_append3, pyDropRight_append3, hp]
  simp

/-- A numeric prefix followed by `kbps` falls through the first branch
(the char `k` spoils the numeric check) and takes the second. -/
theorem dataRate_ok_kbps (p : List Char) (hp : pyIsNumeric p = true) :
    data_rate_bps_2_float_mbps (p ++ "kbps".toList) =
      .ok ((digitsVal p : ℚ) / 1000) := by
  have hknum : pyIsNumeric (p ++ ['k']) = false :=
    pyIsNumeric_append_nondigit p 'k' (by decide)
  unfold data_rate_bps_2_float_mbps
  rw [show "kbps".toList = ['k', 'b', 'p', 's'] from rfl,
    show "bps".toList = ['b', 'p', 's'] from rfl]
  rw [pyTakeRight3_append4, pyDropRight3_append4, pyTakeRight_append4,
    pyDropRight_append4, hknum, hp]
  simp

/-- A numeric prefix followed by `Mbps` takes the third branch. -/
theorem dataRate_ok_Mbps (p : List Char) (hp : pyIsNumeric p = true) :
    data_rate_bps_2_float_mbps (p ++ "Mbps".toList) =
      .ok ((digitsVal p : ℚ)) := by
  have hMnum : pyIsNumeric (p ++ ['M']) = false :=
    pyIsNumeric_append_nondigit p 'M' (by decide)
  have hne2 : (['M', 'b', 'p', 's'] == ['k', 'b', 'p', 's']) = false := by
    decide
  unfold data_rate_bps_2_float_mbps
  rw [show "Mbps".toList = ['M', 'b', 'p', 's'] from rfl,
    show "kbps".toList = ['k', 'b', 'p', 's'] from rfl,
    show "bps".toList = ['b', 'p', 's'] from rfl]
  rw [pyTakeRight3_append4, pyDropRight3_append4, pyTakeRight_append4,
    pyDropRight_append4, hMnum, hp, hne2]
  simp

/-- A numeric prefix followed by `Gbps` takes the fourth branch. -/
theorem dataRate_ok_Gbps (p : List Char) (hp : pyIsNumeric p = true) :
    data_rate_bps_2_float_mbps (p ++ "Gbps".toList) =
      .ok ((digitsVal p : ℚ) * 1000) := by
  have hGnum : pyIsNumeric (p ++ ['G']) = false :=
    pyIsNumeric_append_nondigit p 'G' (by decide)
  have hne2 : (['G', 'b', 'p', 's'] == ['k', 'b', 'p', 's']) = false := by
    decide
  have hne3 : (['G', 'b', 'p', 's'] == ['M', 'b', 'p', 's']) = false := by
    decide
  unfold data_rate_bps_2_float_mbps
  rw [show "Gbps".toList = ['G', 'b', 'p', 's'] from rfl,
    show "Mbps".toList = ['M', 'b', 'p', 's'] from rfl,
    show "kbps".toList = ['k', 'b', 'p', 's'] from rfl,
    show "bps".toList = ['b', 'p', 's'] from rfl]
  rw [pyTakeRight3_append4, pyDropRight3_append4, pyTakeRight_append4,
    pyDropRight_append4, hGnum, hp, hne2, hne3]
  simp

/-- A string failing all four branch guards raises `ValueError`. -/
theorem dataRate_invalid (s : List Char) (hs : validRateString s = false) :
    data_rate_bps_2_float_mbps s = .error .valueError := by
  unfold validRateString at hs
  simp only [Bool.or_eq_false_iff] at hs
  obtain ⟨⟨⟨h1, h2⟩, h3⟩, h4⟩ := hs
  unfold data_rate_bps_2_float_mbps
  rw [h1, h2, h3, h4]
  rfl

/-- The parser's branch guards hold exactly for the strings made of a
numeric prefix and one of the four unit suffixes. -/
theorem validRateString_iff (t : List Char) :
    validRateString t = true ↔
      ∃ q, pyIsNumeric q = true ∧
        (t = q ++ "bps".toList ∨ t = q ++ "kbps".toList ∨
         t = q ++ "Mbps".toList ∨ t = q ++ "Gbps".toList) := by
  constructor
  · intro h
    unfold validRateString at h
    simp only [Bool.or_eq_true, Bool.and_eq_true, beq_iff_eq] at h
    rcases h with ((⟨htr, hnum⟩ | ⟨htr, hnum⟩) | ⟨htr, hnum⟩) | ⟨htr, hnum⟩
    · refine ⟨pyDropRight 3 t, hnum, Or.inl ?_⟩
      conv_lhs => rw [← pySplit_eq 3 t]
      rw [htr]
    · refine ⟨pyDropRight 4 t, hnum, Or.inr (Or.inl ?_)⟩
      conv_lhs => rw [← pySplit_eq 4 t]
      rw [htr]
    · refine ⟨pyDropRight 4 t, hnum, Or.inr (Or.inr (Or.inl ?_))⟩
      conv_lhs => rw [← pySplit_eq 4 t]
      rw [htr]
    · refine ⟨pyDropRight 4 t, hnum, Or.inr (Or.inr (Or.inr ?_))⟩
      conv_lhs => rw [← pySplit_eq 4 t]
      rw [htr]
  · rintro ⟨q, hq, rfl | rfl | rfl | rfl⟩
    · unfold validRateString
      rw [show "bps".toList = ['b', 'p', 's'] from rfl]
      rw [pyTakeRight_append3, pyDropRight_append3, hq]
      simp
    · unfold validRateString
      rw [show "kbps".toList = ['k', 'b', 'p', 's'] from rfl]
      rw [pyTakeRight_append4, pyDropRight_append4, hq]
      simp
    · unfold validRateString
      rw [show "Mbps".toList = ['M', 'b', 'p', 's'] from rfl]
      rw [pyTakeRight_append4, pyDropRight_append4, hq]
      simp
    · unfold validRateString
      rw [show "Gbps".toList = ['G', 'b', 'p', 's'] from rfl]
      rw [pyTakeRight_append4, pyDropRight_append4, hq]
      simp

/-- C6: `data_rate_bps_2_float_mbps` maps a numeric prefix with suffix
`bps`, `kbps`, `Mbps` or `Gbps` to the prefix scaled by 1e-6, 1e-3, 1 or
1e3 Mb/s respectively (witnessed on the four quoted examples and proved
for every numeric prefix); every string whose guards all fail - exactly
the strings admitting no numeric-prefix/known-suffix decomposition, by
the final equivalence - raises `ValueError`. -/
theorem data_rate_parser_spec (p s : List Char)
    (hp : pyIsNumeric p = true) (hs : validRateString s = false) :
    data_rate_bps_2_float_mbps "500000000bps".toList = .ok 500 ∧
    data_rate_bps_2_float_mbps "1Mbps".toList = .ok 1 ∧
    data_rate_bps_2_float_mbps "2Gbps".toList = .ok 2000 ∧
    data_rate_bps_2_float_mbps "10kbps".toList = .ok (1 / 100) ∧
    data_rate_bps_2_float_mbps (p ++ "bps".toList) =
      .ok ((digitsVal p : ℚ) / 1000000) ∧
    data_rate_bps_2_float_mbps (p ++ "kbps".toList) =
      .ok ((digitsVal p : ℚ) / 1000) ∧
    data_rate_bps_2_float_mbps (p ++ "Mbps".toList) =
      .ok ((digitsVal p : ℚ)) ∧
    data_rate_bps_2_float_mbps (p ++ "Gbps".toList) =
      .ok ((digitsVal p : ℚ) * 1000) ∧
    data_rate_bps_2_float_mbps s = .error .valueError ∧
    (∀ t, validRateString t = true ↔
      ∃ q, pyIsNumeric q = true ∧
        (t = q ++ "bps".toList ∨ t = q ++ "kbps".toList ∨
         t = q ++ "Mbps".toList ∨ t = q ++ "Gbps".toList)) := by
  refine ⟨?_, ?_, ?_, ?_, dataRate_ok_bps p hp, dataRate_ok_kbps p hp,
    dataRate_ok_Mbps p hp, dataRate_ok_Gbps p hp, dataRate_invalid s hs,
    validRateString_iff⟩
  · rw [show "500000000bps".toList =
        "500000000".toList ++ "bps".toList from rfl,
      dataRate_ok_bps _ (by decide),
      show digitsVal "500000000".toList = 500000000 from by decide]
    norm_num
  · rw [show "1Mbps".toList = "1".toList ++ "Mbps".toList from rfl,
      dataRate_ok_Mbps _ (by decide),
      show digitsVal "1".toList = 1 from by decide]
    norm_num
  · rw [show "2Gbps".toList = "2".toList ++ "Gbps".toList from rfl,
      dataRate_ok_Gbps _ (by decide),
      show digitsVal "2".toList = 2 from by decide]
    norm_num
  · rw [show "10kbps".toList = "10".toList ++ "kbps".toList from rfl,
      dataRate_ok_kbps _ (by decide),
      show digitsVal "10".toList = 10 from by decide]
    norm_num

/-- Witness for `data_rate_parser_spec` at the numeric prefix `7` and
the invalid string `5xyz`. -/
theorem data_rate_parser_spec_witness :
    pyIsNumeric "7".toList = true ∧
    validRateString "5xyz".toList = false ∧
    data_rate_bps_2_float_mbps ("7".toList ++ "Mbps".toList) =
      .ok ((digitsVal "7".toList : ℚ)) ∧
    data_rate_bps_2_float_mbps "5xyz".toList = .error .valueError := by
  have h := data_rate_parser_spec "7".toList "5xyz".toList (by decide)
    (by decide)
  exact ⟨by decide, by decide, h.2.2.2.2.2.2.1, h.2.2.2.2.2.2.2.2.1⟩
